import Mathlib

set_option maxRecDepth 4000

/-!
Shallow embedding of the node-pdf-lib document engine.

Byte buffers are `List Nat` (one entry per byte).  JS numbers that the
claims exercise are embedded as `Int` (all relevant source arithmetic is
integral), JS `Date` values as a `Nat` clock value threaded explicitly,
and fallible async methods as `Except PDFError`.

Source files embedded here:
  src/src/error.ts        (ErrorCodes, PDFError)
  src/src/text.ts         (PDFPage, PDFPage.setRotation, content accessor)
  src/src/document.ts and src/unnamed/part_012
                          (PDFDocument, getPage, page CRUD, metadata, toBuffer)
  src/src/renderer.ts     (PDFParser.parse, PDFParser.isPDF, parseStructure)
  src/unnamed/part_013    (PDFSerializer, serialize, compressStream)
  src/src/advanced/repair.ts (PDFRepair.repairDocument, performRepair)
-/

/-- Byte list of an ASCII string, used to transcribe the source's string
literals; `Char.toNat` equals the byte value for the ASCII-only literals
that appear in the source. -/
def asciiBytes (s : String) : List Nat := s.toList.map Char.toNat

/-- Node's Buffer `toString` with the ascii encoding unsets the highest
bit of every byte before decoding (Node documentation); on byte values
below 256 that is reduction mod 128. -/
def nodeAscii (bytes : List Nat) : List Nat := bytes.map (fun b => b % 128)

/-- PDF whitespace bytes (NUL, TAB, LF, FF, CR, space). -/
def isPdfWhitespace (b : Nat) : Bool :=
  b == 0 || b == 9 || b == 10 || b == 12 || b == 13 || b == 32

/-- JS `options.x || d` for an optional number field: `undefined` and `0`
are falsy and produce the default. -/
def jsOrNum (v : Option Int) (d : Int) : Int :=
  match v with
  | none => d
  | some x => if x = 0 then d else x

/-- JS `options.s || null` for an optional string field: `undefined` and
the empty string are falsy and produce `null`. -/
def jsOrStr (v : Option String) : Option String :=
  match v with
  | none => none
  | some s => if s = "" then none else some s

/-- JS falsiness of a string-or-null value (`!this._ownerPassword`). -/
def jsFalsyStr (v : Option String) : Bool :=
  v == none || v == some ""

/-- Error codes of src/src/error.ts. -/
inductive ErrorCodes where
  | UNKNOWN_ERROR
  | FILE_NOT_FOUND
  | INVALID_PDF
  | PARSE_ERROR
  | RENDER_ERROR
  | UNSUPPORTED_FEATURE
  | INVALID_PARAMETER
  | PERMISSION_ERROR
deriving DecidableEq

/-- PDFError of src/src/error.ts (the optional `originalError` chain is
dropped: no claim inspects it). -/
structure PDFError where
  code : ErrorCodes
  message : String
deriving DecidableEq

/-- PDFMetadata of src/src/document.ts; `Date` fields carry the clock
value (`new Date()` at the recorded instant). -/
structure PDFMetadata where
  title : Option String := none
  author : Option String := none
  subject : Option String := none
  keywords : Option (List String) := none
  creator : Option String := none
  producer : Option String := none
  creationDate : Option Nat := none
  modificationDate : Option Nat := none
deriving DecidableEq

/-- An entry of a page's `content: any[]` array.  The parser only ever
stores plain strings there; other payloads are tagged opaquely. -/
inductive ContentItem where
  | str (s : String)
  | other (tag : String)
deriving DecidableEq

/-- A page annotation (src/src/annotation.ts), embedded opaquely: no
claim inspects annotation internals. -/
structure PDFAnnot where
  tag : String
deriving DecidableEq

/-- The `content` argument of the PDFPage constructor: a single value is
wrapped into a one-element array (`Array.isArray` test in the source). -/
inductive ContentArg where
  | one (item : ContentItem)
  | arr (items : List ContentItem)
deriving DecidableEq

def ContentArg.toList : ContentArg → List ContentItem
  | .one i => [i]
  | .arr l => l

/-- PDFPage of src/src/text.ts.  Fields mirror the private `_width`,
`_height`, `_rotation`, `_content`, `_annotations`, `_compressed`; the
source getters return these values (the `annotations` field is named
`annots` here). -/
structure PDFPage where
  width : Int
  height : Int
  rotation : Int
  content : List ContentItem
  annots : List PDFAnnot
  compressed : Bool
deriving DecidableEq

/-- Options object of the PDFPage constructor. -/
structure PageOptions where
  width : Option Int := none
  height : Option Int := none
  rotation : Option Int := none
  content : Option ContentArg := none
  compressed : Option Bool := none

/-- PDFPage constructor (src/src/text.ts lines 126-142): `||` defaults
612 / 792 / 0, single content value wrapped into an array. -/
def PDFPage.new (options : PageOptions) : PDFPage :=
  { width := jsOrNum options.width 612
    height := jsOrNum options.height 792
    rotation := jsOrNum options.rotation 0
    content := match options.content with
      | some c => c.toList
      | none => []
    annots := []
    compressed := options.compressed.getD false }

/-- PDFPage.setRotation (src/src/text.ts lines 252-258).
JS `%` on integers is truncating remainder (`Int.tmod`); the normalized
value `((rotation % 360) + 360) % 360` is in `[0, 360)`, and for a
nonnegative rational `n / 90` JS `Math.round` (round half toward +inf)
equals `(2 * n + 90) / 180` in integer division. -/
def PDFPage.setRotation (p : PDFPage) (rotation : Int) : PDFPage :=
  let r1 : Int := (Int.tmod rotation 360 + 360).tmod 360
  let n : Nat := r1.toNat
  if Int.tmod r1 90 = 0 then
    { p with rotation := (n : Int) }
  else
    { p with rotation := ((2 * n + 90) / 180 * 90 : Nat) }

/-- PDFPage.addContent (src/src/text.ts lines 196-198). -/
def PDFPage.addContent (p : PDFPage) (c : ContentItem) : PDFPage :=
  { p with content := p.content ++ [c] }

/-- Document outline (src/src/outline.ts), embedded opaquely. -/
structure PDFOutline where
  tag : String
deriving DecidableEq

/-- Document form (src/src/form.ts), embedded opaquely. -/
structure PDFForm where
  tag : String
deriving DecidableEq

/-- PDFDocument of src/src/document.ts and src/unnamed/part_012.  Fields
mirror the private `_pages`, `_metadata`, `_outline`, `_form`,
`_compressed`; `pageCount` is `pages.length`. -/
structure PDFDocument where
  pages : List PDFPage
  metadata : PDFMetadata
  outline : Option PDFOutline
  form : Option PDFForm
  compressed : Bool
deriving DecidableEq

/-- Options object of the PDFDocument constructor. -/
structure DocOptions where
  metadata : Option PDFMetadata := none

/-- PDFDocument constructor (src/src/document.ts lines 20-24). -/
def PDFDocument.new (options : DocOptions) : PDFDocument :=
  { pages := []
    metadata := options.metadata.getD {}
    outline := none
    form := none
    compressed := false }

/-- pageCount getter (src/src/document.ts lines 30-32). -/
def PDFDocument.pageCount (d : PDFDocument) : Nat := d.pages.length

/-- getPage (src/src/document.ts lines 71-76): `null` out of bounds,
the stored page otherwise. -/
def PDFDocument.getPage (d : PDFDocument) (index : Int) : Option PDFPage :=
  if index < 0 ∨ (d.pages.length : Int) ≤ index then none
  else d.pages.get? index.toNat

/-- setMetadata (src/src/document.ts lines 90-92); the source's spread
copy is the identity in this value semantics. -/
def PDFDocument.setMetadata (d : PDFDocument) (metadata : PDFMetadata) : PDFDocument :=
  { d with metadata := metadata }

/-- addPage (src/src/document.ts lines 98-100). -/
def PDFDocument.addPage (d : PDFDocument) (page : PDFPage) : PDFDocument :=
  { d with pages := d.pages ++ [page] }

/-- insertPage (src/unnamed/part_012 lines 133-140): `false` when
`index < 0 || index > length`, otherwise `splice(index, 0, page)`. -/
def PDFDocument.insertPage (d : PDFDocument) (index : Int) (page : PDFPage) :
    Bool × PDFDocument :=
  if index < 0 ∨ (d.pages.length : Int) < index then (false, d)
  else (true, { d with
    pages := d.pages.take index.toNat ++ page :: d.pages.drop index.toNat })

/-- removePage (src/unnamed/part_012 lines 147-154): `null` when out of
bounds, otherwise `splice(index, 1)` returning the removed page. -/
def PDFDocument.removePage (d : PDFDocument) (index : Int) :
    Option PDFPage × PDFDocument :=
  if index < 0 ∨ (d.pages.length : Int) ≤ index then (none, d)
  else (d.pages.get? index.toNat, { d with
    pages := d.pages.take index.toNat ++ d.pages.drop (index.toNat + 1) })

/-- replacePage (src/unnamed/part_012 lines 162-170): `null` when out of
bounds, otherwise overwrite `_pages[index]` returning the old page. -/
def PDFDocument.replacePage (d : PDFDocument) (index : Int) (page : PDFPage) :
    Option PDFPage × PDFDocument :=
  if index < 0 ∨ (d.pages.length : Int) ≤ index then (none, d)
  else (d.pages.get? index.toNat, { d with pages := d.pages.set index.toNat page })

/-- setOutline (src/src/document.ts lines 106-108). -/
def PDFDocument.setOutline (d : PDFDocument) (o : PDFOutline) : PDFDocument :=
  { d with outline := some o }

/-- setForm (src/src/document.ts lines 114-116). -/
def PDFDocument.setForm (d : PDFDocument) (f : PDFForm) : PDFDocument :=
  { d with form := some f }

/-- PDFParser.isPDF (src/src/renderer.ts lines 113-121): `false` for
buffers shorter than 5 bytes, otherwise compare
`buffer.slice(0, 5).toString("ascii")` with the string of bytes
`%PDF-`; Node's ascii decoding unsets the high bit of each byte. -/
def PDFParser.isPDF (buffer : List Nat) : Bool :=
  if buffer.length < 5 then false
  else decide (nodeAscii (buffer.take 5) = asciiBytes "%PDF-")

/-- PDFParser.parseStructure (src/src/renderer.ts lines 130-155): adds
the fixed sample page and sets the fixed sample metadata regardless of
the buffer contents.  `now` is the clock read by `new Date()`. -/
def PDFParser.parseStructure (now : Nat) (document : PDFDocument) : PDFDocument :=
  let page := PDFPage.new
    { width := some 612
      height := some 792
      rotation := some 0
      content := some (ContentArg.one (ContentItem.str "Sample page content")) }
  let d1 := document.addPage page
  d1.setMetadata
    { title := some "Sample PDF"
      author := some "PDF.js"
      creationDate := some now }

/-- PDFParser.parse (src/src/renderer.ts lines 85-105): reject with
INVALID_PDF when the signature check fails, otherwise populate a fresh
document via parseStructure (which cannot fail). -/
def PDFParser.parse (now : Nat) (buffer : List Nat) : Except PDFError PDFDocument :=
  if PDFParser.isPDF buffer then
    Except.ok (PDFParser.parseStructure now (PDFDocument.new {}))
  else
    Except.error { code := ErrorCodes.INVALID_PDF, message := "Invalid PDF format" }

/-- PDF permissions record (src/unnamed/part_013 lines 145-153). -/
structure PDFPermissions where
  printing : Option Bool := none
  modifying : Option Bool := none
  copying : Option Bool := none
  annotating : Option Bool := none
  fillingForms : Option Bool := none
  contentAccessibility : Option Bool := none
  documentAssembly : Option Bool := none
deriving DecidableEq

/-- Options object of the PDFSerializer constructor. -/
structure SerializerOptions where
  compressStreams : Option Bool := none
  encryptDocument : Option Bool := none
  permissions : Option PDFPermissions := none
  userPassword : Option String := none
  ownerPassword : Option String := none

/-- PDFSerializer state (src/unnamed/part_013 lines 9-14). -/
structure PDFSerializer where
  compressStreams : Bool
  encryptDocument : Bool
  permissions : Option PDFPermissions
  userPassword : Option String
  ownerPassword : Option String

/-- PDFSerializer constructor (src/unnamed/part_013 lines 20-34):
`compressStreams !== false`, `encryptDocument || false`, passwords
normalized by `|| null` (empty string becomes null). -/
def PDFSerializer.new (options : SerializerOptions) : PDFSerializer :=
  { compressStreams := !(options.compressStreams == some false)
    encryptDocument := options.encryptDocument.getD false
    permissions := options.permissions
    userPassword := jsOrStr options.userPassword
    ownerPassword := jsOrStr options.ownerPassword }

/-- createDocumentCatalog (src/unnamed/part_013 lines 107-110): returns
an empty buffer. -/
def PDFSerializer.createDocumentCatalog (_document : PDFDocument) : List Nat := []

/-- createPages (src/unnamed/part_013 lines 118-121): returns an empty
buffer. -/
def PDFSerializer.createPages (_document : PDFDocument) : List Nat := []

/-- The unused `pdfHeader` local of serialize (UTF-8 bytes of
`%PDF-1.7\n%(yen)(plus-minus)(e-umlaut)\n`). -/
def pdfHeaderUnused : List Nat :=
  asciiBytes "%PDF-1.7\n" ++ [37, 194, 165, 194, 177, 195, 171, 10]

/-- The hard-coded output of serialize (src/unnamed/part_013 lines
78-90): concatenation of the seven `Buffer.from` parts. -/
def dummyPDF : List Nat :=
  asciiBytes ("%PDF-1.7\n" ++
    "1 0 obj\n<< /Type /Catalog /Pages 2 0 R >>\nendobj\n" ++
    "2 0 obj\n<< /Type /Pages /Kids [3 0 R] /Count 1 >>\nendobj\n" ++
    "3 0 obj\n<< /Type /Page /Parent 2 0 R /MediaBox [0 0 612 792] /Contents 4 0 R >>\nendobj\n" ++
    "4 0 obj\n<< /Length 44 >>\nstream\nBT\n/F1 24 Tf\n100 700 Td\n(Hello, World!) Tj\nET\nendstream\nendobj\n" ++
    "xref\n0 5\n0000000000 65535 f\n0000000010 00000 n\n0000000056 00000 n\n0000000111 00000 n\n0000000212 00000 n\n" ++
    "trailer\n<< /Size 5 /Root 1 0 R >>\nstartxref\n307\n%%EOF\n")

/-- PDFSerializer.serialize (src/unnamed/part_013 lines 41-99): builds
unused catalog/pages parts, fails with INVALID_PARAMETER when encryption
is requested without a (truthy) owner password, and otherwise returns
the hard-coded dummy PDF buffer. -/
def PDFSerializer.serialize (s : PDFSerializer) (document : PDFDocument) :
    Except PDFError (List Nat) :=
  let _pdfHeader := pdfHeaderUnused
  let _documentCatalog := PDFSerializer.createDocumentCatalog document
  let _pages := PDFSerializer.createPages document
  if s.encryptDocument && jsFalsyStr s.ownerPassword then
    Except.error { code := ErrorCodes.INVALID_PARAMETER
                   message := "Owner password is required for encryption" }
  else
    Except.ok dummyPDF

/-- Options object of PDFDocument.toBuffer. -/
structure ToBufferOptions where
  compress : Option Bool := none
  encrypt : Option Bool := none
  userPassword : Option String := none
  ownerPassword : Option String := none

/-- PDFDocument.toBuffer (src/src/document.ts lines 137-162): builds a
serializer from the options (`compress !== false`, `encrypt || false`)
and serializes; a PDFError from serialize is rethrown unchanged. -/
def PDFDocument.toBuffer (d : PDFDocument) (options : ToBufferOptions) :
    Except PDFError (List Nat) :=
  let serializer := PDFSerializer.new
    { compressStreams := some (!(options.compress == some false))
      encryptDocument := some (options.encrypt.getD false)
      userPassword := options.userPassword
      ownerPassword := options.ownerPassword }
  serializer.serialize d

/-- PDFRepairOptions (src/src/advanced/repair.ts lines 9-16). -/
structure PDFRepairOptions where
  fixXref : Option Bool := none
  recoverPages : Option Bool := none
  recoverFonts : Option Bool := none
  recoverImages : Option Bool := none
  recoverMetadata : Option Bool := none
  forceRepair : Option Bool := none

/-- PDFRepairResult (src/src/advanced/repair.ts lines 21-30). -/
structure PDFRepairResult where
  success : Bool := false
  repaired : Bool := false
  recoveredPages : Nat := 0
  recoveredFonts : Nat := 0
  recoveredImages : Nat := 0
  recoveredMetadata : Bool := false
  errors : List String := []
  warnings : List String := []
deriving DecidableEq

/-- PDFRepair.isPDF (src/src/advanced/repair.ts lines 108-116), same
body as PDFParser.isPDF. -/
def PDFRepair.isPDF (buffer : List Nat) : Bool :=
  if buffer.length < 5 then false
  else decide (nodeAscii (buffer.take 5) = asciiBytes "%PDF-")

/-- PDFRepair.extractMetadata (src/src/advanced/repair.ts lines
190-200): returns the fixed placeholder metadata, never null and never
throwing. -/
def PDFRepair.extractMetadata (now : Nat) (_buffer : List Nat) : PDFMetadata :=
  { title := some "Recovered Document"
    producer := some "node-pdf-lib Repair"
    creationDate := some now }

/-- PDFRepair.recoverPages (src/src/advanced/repair.ts lines 208-216):
returns the fixed placeholder page list. -/
def PDFRepair.recoverPages (_buffer : List Nat) : List PDFPage :=
  [PDFPage.new {}]

/-- PDFRepair.performRepair (src/src/advanced/repair.ts lines 126-182):
recover metadata unless disabled, recover pages unless disabled, add a
blank page when none were recovered; none of the helpers can throw, so
the null branch of the source is unreachable and a document is always
returned. -/
def PDFRepair.performRepair (now : Nat) (buffer : List Nat)
    (options : PDFRepairOptions) (result : PDFRepairResult) :
    PDFRepairResult × Option PDFDocument :=
  let document := PDFDocument.new {}
  let step1 :=
    if options.recoverMetadata != some false then
      (document.setMetadata (PDFRepair.extractMetadata now buffer),
       { result with recoveredMetadata := true })
    else (document, result)
  let step2 :=
    if options.recoverPages != some false then
      let pages := PDFRepair.recoverPages buffer
      (pages.foldl PDFDocument.addPage step1.1,
       { step1.2 with recoveredPages := pages.length })
    else step1
  let step3 :=
    if step2.1.pageCount = 0 then
      (step2.1.addPage (PDFPage.new {}),
       { step2.2 with warnings := step2.2.warnings ++
          ["Added blank page as no pages could be recovered"] })
    else step2
  (step3.2, some step3.1)

/-- PDFRepair.repairDocument (src/src/advanced/repair.ts lines 43-100):
reject non-signed buffers with an error entry (no document), otherwise
try the parser; on success return the parsed document with the
undamaged warning, on failure record the damage warning and run
performRepair.  `now` is the clock. -/
def PDFRepair.repairDocument (now : Nat) (buffer : List Nat)
    (options : PDFRepairOptions) :
    Except PDFError (PDFRepairResult × Option PDFDocument) :=
  let result : PDFRepairResult := {}
  if !PDFRepair.isPDF buffer then
    Except.ok ({ result with errors := ["Not a valid PDF file"] }, none)
  else
    match PDFParser.parse now buffer with
    | Except.ok document =>
        let result2 :=
          { result with
            success := true
            warnings := ["Document appears to be undamaged"] }
        Except.ok (result2, some document)
    | Except.error e =>
        let result := { result with
          warnings := ["Document is damaged: " ++ e.message] }
        match PDFRepair.performRepair now buffer options result with
        | (result2, some d) =>
            Except.ok ({ result2 with success := true, repaired := true }, some d)
        | (result2, none) => Except.ok (result2, none)

/-- Adler-32 checksum over a byte list (RFC 1950), the integrity value a
zlib stream carries after its deflate data. -/
def adler32 (data : List Nat) : Nat :=
  let p := data.foldl
    (fun (p : Nat × Nat) b =>
      ((p.1 + b) % 65521, (p.2 + (p.1 + b) % 65521) % 65521))
    (1, 0)
  p.2 * 65536 + p.1

/-- Big-endian 4-byte encoding of an Adler-32 value, as written at the
end of a zlib stream. -/
def adlerBytes (data : List Nat) : List Nat :=
  let a := adler32 data
  [a / 16777216 % 256, a / 65536 % 256, a / 256 % 256, a % 256]

/-- Modelled from the spec: the Filter Pipeline's Flate `encode`
(section 4.4) is absent from src/ — the only trace is
`PDFSerializer.compressStream` (src/unnamed/part_013 lines 129-139),
which delegates to the external `zlib.deflate`.  This models the deflate
body as a sequence of stored (BTYPE 0) blocks, a valid RFC 1951 deflate
stream: each block is a header byte (BFINAL bit, BTYPE 00), LEN and its
ones-complement NLEN as 16-bit little-endian values, then LEN raw bytes;
blocks hold at most 65535 bytes. -/
def storedBlocks (data : List Nat) : List Nat :=
  if h : data.length ≤ 65535 then
    1 :: data.length % 256 :: data.length / 256 ::
      (65535 - data.length) % 256 :: (65535 - data.length) / 256 :: data
  else
    0 :: 255 :: 255 :: 0 :: 0 ::
      (data.take 65535 ++ storedBlocks (data.drop 65535))
termination_by data.length
decreasing_by simp [List.length_drop]; omega

/-- Modelled from the spec: the Filter Pipeline's Flate `decode` inverse
block reader (section 4.4, `decode(encode(x)) == x`); absent from src/.
Reads stored deflate blocks: checks BTYPE is 0, reads LEN/NLEN, checks
the ones-complement relation and that LEN bytes are available, and
returns the concatenated block payloads with the unread remainder.
`fuel` bounds the recursion; one block consumes at least five bytes. -/
def inflateBlocks : Nat → List Nat → Option (List Nat × List Nat)
  | 0, _ => none
  | fuel + 1, bf :: l0 :: l1 :: n0 :: n1 :: rest =>
    if bf / 2 % 4 = 0 then
      let len := l0 + 256 * l1
      let nlen := n0 + 256 * n1
      if len + nlen = 65535 ∧ len ≤ rest.length then
        let chunk := rest.take len
        let rest2 := rest.drop len
        if bf % 2 = 1 then some (chunk, rest2)
        else
          match inflateBlocks fuel rest2 with
          | some (d, r) => some (chunk ++ d, r)
          | none => none
      else none
    else none
  | _ + 1, _ => none

/-- Modelled from the spec: Flate `encode` as a zlib (RFC 1950) stream —
the 0x78 0x01 header, stored deflate blocks, and the big-endian Adler-32
of the payload. -/
def flateEncode (data : List Nat) : List Nat :=
  120 :: 1 :: (storedBlocks data ++ adlerBytes data)

/-- Modelled from the spec: Flate `decode` — checks the zlib header
(compression method 8, header checksum divisible by 31), inflates the
deflate body, and verifies the trailing Adler-32. -/
def flateDecode (bytes : List Nat) : Option (List Nat) :=
  match bytes with
  | cmf :: flg :: rest =>
    if cmf % 16 = 8 ∧ (cmf * 256 + flg) % 31 = 0 then
      match inflateBlocks (rest.length + 1) rest with
      | some (data, trailer) =>
          if trailer = adlerBytes data then some data else none
      | none => none
    else none
  | _ => none

/-- PDFSerializer.compressStream (src/unnamed/part_013 lines 129-139):
compresses a buffer with zlib deflate; the zlib call is modelled by the
spec-modelled stored-block Flate encoder above. -/
def PDFSerializer.compressStream (data : List Nat) : List Nat :=
  flateEncode data

/-- A JS heap of arrays: cell `r` holds the current contents of the
array object with identity `r`.  Used to express the aliasing content of
the spread-copy accessors — a value model cannot state "mutating the
returned array leaves the stored array unchanged". -/
structure JSHeap (α : Type) where
  cells : List (List α)

/-- Read the contents of array object `r`. -/
def JSHeap.read (h : JSHeap α) (r : Nat) : List α :=
  (h.cells.get? r).getD []

/-- Allocate a fresh array object holding `v`; its identity is the
previous cell count, distinct from every live identity. -/
def JSHeap.alloc (h : JSHeap α) (v : List α) : JSHeap α × Nat :=
  (⟨h.cells ++ [v]⟩, h.cells.length)

/-- In-place mutation of array object `r` (covers push, pop, index
assignment: any replacement of its contents). -/
def JSHeap.write (h : JSHeap α) (r : Nat) (v : List α) : JSHeap α :=
  ⟨h.cells.set r v⟩

/-- The spread-copy accessor pattern `return [...this._arr]` (and
`{...this._metadata}`): allocate a fresh object holding a copy of the
internal contents and hand its identity to the caller. -/
def spreadGet (h : JSHeap α) (r : Nat) : JSHeap α × Nat :=
  h.alloc (h.read r)

/-- Heap-level view of a PDFDocument for the accessor claims: the
private `_pages` array and `_metadata` object live in cells of their
heaps. -/
structure DocHeapState where
  pagesH : JSHeap PDFPage
  pagesRef : Nat
  metaH : JSHeap (String × String)
  metaRef : Nat

/-- getPages (src/src/document.ts lines 82-84): `return [...this._pages]`. -/
def DocHeapState.getPages (s : DocHeapState) : JSHeap PDFPage × Nat :=
  spreadGet s.pagesH s.pagesRef

/-- metadata getter (src/src/document.ts lines 38-40):
`return {...this._metadata}`, the object modelled as its entry list. -/
def DocHeapState.metadata (s : DocHeapState) : JSHeap (String × String) × Nat :=
  spreadGet s.metaH s.metaRef

/-- Heap-level view of a PDFPage: the private `_content` and
`_annotations` arrays. -/
structure PageHeapState where
  contentH : JSHeap ContentItem
  contentRef : Nat
  annotsH : JSHeap PDFAnnot
  annotsRef : Nat

/-- content getter (src/src/text.ts lines 172-174):
`return [...this._content]`. -/
def PageHeapState.content (s : PageHeapState) : JSHeap ContentItem × Nat :=
  spreadGet s.contentH s.contentRef

/-- annotations getter (src/src/text.ts lines 180-182):
`return [...this._annotations]`. -/
def PageHeapState.annots (s : PageHeapState) : JSHeap PDFAnnot × Nat :=
  spreadGet s.annotsH s.annotsRef

/-- Fixture page used by concrete witnesses. -/
def pageA : PDFPage := PDFPage.new { width := some 100 }

/-- Second fixture page, distinguishable from `pageA`. -/
def pageB : PDFPage := PDFPage.new { width := some 200 }

/-- Fixture document holding `pageA` then `pageB`. -/
def docAB : PDFDocument := ((PDFDocument.new {}).addPage pageA).addPage pageB

/-- C6: for every document and integer index, getPage returns the page
stored at that position when `0 ≤ index < pageCount`, and returns `none`
(never an exception or out-of-bounds access) when the index is negative
or at least pageCount. -/
theorem getPage_in_bounds_or_none (d : PDFDocument) (i : Int) :
    ((0 ≤ i ∧ i < (d.pageCount : Int)) →
      d.getPage i = d.pages.get? i.toNat ∧ (d.getPage i).isSome = true) ∧
    ((i < 0 ∨ (d.pageCount : Int) ≤ i) → d.getPage i = none) := by
  constructor
  · rintro ⟨h0, hlt⟩
    have hlen : i.toNat < d.pages.length := by
      simp only [PDFDocument.pageCount] at hlt
      omega
    have hni : ¬(i < 0 ∨ (d.pages.length : Int) ≤ i) := by
      push_neg
      constructor
      · omega
      · omega
    rw [PDFDocument.getPage, if_neg hni]
    refine ⟨rfl, ?_⟩
    have hne : d.pages.get? i.toNat ≠ none := by
      intro hnone
      have := List.get?_eq_none.mp hnone
      omega
    exact Option.isSome_iff_ne_none.mpr hne
  · intro hout
    have hyes : i < 0 ∨ (d.pages.length : Int) ≤ i := by
      simp only [PDFDocument.pageCount] at hout
      exact hout
    rw [PDFDocument.getPage, if_pos hyes]

/-- Witness for C6: concrete in-range and out-of-range lookups on the
two-page fixture document. -/
theorem getPage_in_bounds_or_none_witness :
    docAB.getPage 1 = docAB.pages.get? 1 ∧
    docAB.getPage (-1) = none ∧
    docAB.getPage 2 = none := by
  refine ⟨((getPage_in_bounds_or_none docAB 1).1 (by decide)).1, ?_, ?_⟩
  · exact (getPage_in_bounds_or_none docAB (-1)).2 (by decide)
  · exact (getPage_in_bounds_or_none docAB 2).2 (by decide)

/-- C9 (code bug): setRotation's own documentation promises a result in
0, 90, 180, 270, but the input 315 normalizes to 315, fails the
multiple-of-90 test, and `Math.round(315 / 90) * 90` evaluates to 360 —
outside the documented set. -/
theorem setRotation_315_yields_360 :
    ((PDFPage.new {}).setRotation 315).rotation = 360 ∧
    ((PDFPage.new {}).setRotation 315).rotation ∉ ([0, 90, 180, 270] : List Int) := by
  decide

/-- C3: when encryption is requested and the owner password is absent
(or empty, which JS `||` also treats as unsupplied), serialize — also
when reached through toBuffer — fails with INVALID_PARAMETER and
produces no buffer. -/
theorem serialize_encrypt_requires_owner_password
    (doc : PDFDocument) (sopts : SerializerOptions) (bopts : ToBufferOptions)
    (hs1 : sopts.encryptDocument = some true)
    (hs2 : sopts.ownerPassword = none ∨ sopts.ownerPassword = some "")
    (hb1 : bopts.encrypt = some true)
    (hb2 : bopts.ownerPassword = none ∨ bopts.ownerPassword = some "") :
    (∃ e, (PDFSerializer.new sopts).serialize doc = Except.error e ∧
       e.code = ErrorCodes.INVALID_PARAMETER) ∧
    (∃ e, doc.toBuffer bopts = Except.error e ∧
       e.code = ErrorCodes.INVALID_PARAMETER) := by
  have hnorm : ∀ v : Option String, v = none ∨ v = some "" → jsOrStr v = none := by
    rintro v (rfl | rfl) <;> simp [jsOrStr]
  constructor
  · refine ⟨⟨ErrorCodes.INVALID_PARAMETER,
      "Owner password is required for encryption"⟩, ?_, rfl⟩
    simp [PDFSerializer.new, PDFSerializer.serialize, hs1, hnorm _ hs2, jsFalsyStr]
  · refine ⟨⟨ErrorCodes.INVALID_PARAMETER,
      "Owner password is required for encryption"⟩, ?_, rfl⟩
    simp [PDFDocument.toBuffer, PDFSerializer.new, PDFSerializer.serialize,
      hb1, hnorm _ hb2, jsFalsyStr]

/-- C2: whenever serialize succeeds, the returned buffer starts with the
header bytes `%PDF-1.7` and its last non-whitespace bytes are `%%EOF`. -/
theorem serialize_header_and_eof (s : PDFSerializer) (doc : PDFDocument)
    (b : List Nat) (hok : s.serialize doc = Except.ok b) :
    b.take 8 = asciiBytes "%PDF-1.7" ∧
    ((b.reverse.dropWhile isPdfWhitespace).take 5).reverse = asciiBytes "%%EOF" := by
  have hb : b = dummyPDF := by
    unfold PDFSerializer.serialize at hok
    split at hok
    · exact absurd hok (by simp)
    · simpa using hok.symm
  subst hb
  constructor
  · decide
  · decide

/-- Witness for C2: serialization of the empty document with default
options succeeds, and the theorem applies to its output. -/
theorem serialize_header_and_eof_witness :
    (dummyPDF.take 8 = asciiBytes "%PDF-1.7" ∧
     ((dummyPDF.reverse.dropWhile isPdfWhitespace).take 5).reverse =
       asciiBytes "%%EOF") :=
  serialize_header_and_eof (PDFSerializer.new {}) (PDFDocument.new {}) dummyPDF rfl

/-- C4 counterexample: the buffer A5 50 44 46 2D does not begin with the
five ASCII bytes of `%PDF-` (its first byte is 0xA5, not 0x25), yet
Node's ascii decoding masks 0xA5 to 0x25 and the signature check passes,
so parse succeeds instead of rejecting with INVALID_PDF. -/
theorem parse_accepts_masked_signature :
    ([165, 80, 68, 70, 45] : List Nat).take 5 ≠ asciiBytes "%PDF-" ∧
    (PDFParser.parse 0 [165, 80, 68, 70, 45]).isOk = true := by
  decide

/-- C4 (amended): parse rejects with INVALID_PDF exactly the buffers
shorter than five bytes or whose first five bytes do not spell `%PDF-`
after Node's ascii decoding clears each byte's high bit; when the masked
signature matches, parse does not raise the invalid-PDF error. -/
theorem parse_invalid_pdf_iff_masked_signature (now : Nat) (b : List Nat) :
    (PDFParser.isPDF b = true ↔
      (5 ≤ b.length ∧ nodeAscii (b.take 5) = asciiBytes "%PDF-")) ∧
    (PDFParser.isPDF b = false →
      PDFParser.parse now b =
        Except.error { code := ErrorCodes.INVALID_PDF
                       message := "Invalid PDF format" }) ∧
    (PDFParser.isPDF b = true → (PDFParser.parse now b).isOk = true) := by
  refine ⟨?_, ?_, ?_⟩
  · unfold PDFParser.isPDF
    split
    · simp
      omega
    · simp
      omega
  · intro hf
    unfold PDFParser.parse
    rw [hf]
    simp
  · intro ht
    unfold PDFParser.parse
    rw [ht]
    simp [Except.isOk, Except.toBool]

/-- Witness for C4: the empty buffer is rejected with INVALID_PDF, and a
buffer spelling an actual `%PDF-` signature is not rejected. -/
theorem parse_invalid_pdf_iff_masked_signature_witness :
    PDFParser.parse 0 [] =
      Except.error { code := ErrorCodes.INVALID_PDF
                     message := "Invalid PDF format" } ∧
    (PDFParser.parse 0 (asciiBytes "%PDF-1.4")).isOk = true := by
  refine ⟨(parse_invalid_pdf_iff_masked_signature 0 []).2.1 (by decide),
    (parse_invalid_pdf_iff_masked_signature 0 (asciiBytes "%PDF-1.4")).2.2
      (by decide)⟩

/-- C5: on any buffer carrying a `%PDF-1.7` header — whatever the rest
of its structure — repairDocument returns normally with a document and a
non-empty diagnostics list, rather than throwing. -/
theorem repairDocument_returns_on_signed_buffer
    (now : Nat) (opts : PDFRepairOptions) (b : List Nat)
    (hb : b.take 8 = asciiBytes "%PDF-1.7") :
    ∃ r d, PDFRepair.repairDocument now b opts = Except.ok (r, some d) ∧
      r.warnings ≠ [] := by
  have hlen : 8 ≤ b.length := by
    have h := congrArg List.length hb
    simp only [List.length_take] at h
    have : (asciiBytes "%PDF-1.7").length = 8 := by decide
    omega
  have h5 : b.take 5 = asciiBytes "%PDF-" := by
    have h := congrArg (List.take 5) hb
    rw [List.take_take] at h
    norm_num at h
    rw [h]
    decide
  have hpdf : PDFRepair.isPDF b = true := by
    unfold PDFRepair.isPDF
    rw [if_neg (by omega : ¬ b.length < 5), h5]
    decide
  have hpdf2 : PDFParser.isPDF b = true := by
    unfold PDFParser.isPDF
    rw [if_neg (by omega : ¬ b.length < 5), h5]
    decide
  refine ⟨{ success := true, warnings := ["Document appears to be undamaged"] },
    PDFParser.parseStructure now (PDFDocument.new {}), ?_, by simp⟩
  unfold PDFRepair.repairDocument PDFParser.parse
  rw [hpdf, hpdf2]
  simp

/-- Witness for C5: a concrete header-only buffer is repaired without
throwing and with a diagnostic. -/
theorem repairDocument_returns_on_signed_buffer_witness :
    ∃ r d, PDFRepair.repairDocument 0 (asciiBytes "%PDF-1.7\n") {} =
      Except.ok (r, some d) ∧ r.warnings ≠ [] :=
  repairDocument_returns_on_signed_buffer 0 {} (asciiBytes "%PDF-1.7\n")
    (by decide)

/-- Fixture for C1: a two-page document with its own metadata title,
built through the mutation API (new, addPage, setMetadata). -/
def twoPageDoc : PDFDocument :=
  (((PDFDocument.new {}).addPage (PDFPage.new {})).addPage
    (PDFPage.new {})).setMetadata { title := some "My Document" }

/-- C1 (code bug): the spec's round-trip fails on the code — serialize
emits a fixed dummy file and parse builds a fixed sample document, so
parse(serialize(D)) has one page titled `Sample PDF` regardless of the
page count and metadata of D. -/
theorem roundtrip_loses_document :
    twoPageDoc.pageCount = 2 ∧
    twoPageDoc.metadata.title = some "My Document" ∧
    ((PDFSerializer.new {}).serialize twoPageDoc).toOption = some dummyPDF ∧
    ((PDFParser.parse 0 dummyPDF).toOption.map PDFDocument.pageCount) = some 1 ∧
    ((PDFParser.parse 0 dummyPDF).toOption.map fun d => d.metadata.title) =
      some (some "Sample PDF") := by
  decide

/-- Auxiliary: writing index `i` of a list leaves every other index
unchanged. -/
theorem get?_set_ne' (l : List α) (i j : Nat) (a : α) (h : i ≠ j) :
    (l.set i a).get? j = l.get? j := by
  induction l generalizing i j with
  | nil => simp
  | cons x xs ih =>
    cases i with
    | zero =>
      cases j with
      | zero => exact absurd rfl h
      | succ j => simp
    | succ i =>
      cases j with
      | zero => simp
      | succ j => simpa using ih i j (by omega)

/-- Auxiliary: writing an in-bounds index of a list stores the value
there. -/
theorem get?_set_self' (l : List α) (i : Nat) (a : α) (h : i < l.length) :
    (l.set i a).get? i = some a := by
  induction l generalizing i with
  | nil => simp at h
  | cons x xs ih =>
    cases i with
    | zero => simp
    | succ i => simpa using ih i (by simpa using h)

/-- C10: out-of-range insert/remove/replace report failure and leave the
page list unchanged; in range, removePage returns the removed page,
shrinks the count by one and preserves the order of the remaining pages,
and replacePage returns the old page and changes only the written
index. -/
theorem pageCrud_atomic_and_framed (d : PDFDocument) (i : Int) (p : PDFPage) :
    ((i < 0 ∨ (d.pageCount : Int) < i) → d.insertPage i p = (false, d)) ∧
    ((i < 0 ∨ (d.pageCount : Int) ≤ i) →
      d.removePage i = (none, d) ∧ d.replacePage i p = (none, d)) ∧
    ((0 ≤ i ∧ i < (d.pageCount : Int)) →
      ((d.removePage i).1 = d.pages.get? i.toNat ∧
       ((d.removePage i).1).isSome = true ∧
       ((d.removePage i).2).pageCount + 1 = d.pageCount ∧
       (∀ j : Nat, j < i.toNat →
         ((d.removePage i).2).pages.get? j = d.pages.get? j) ∧
       (∀ j : Nat, i.toNat ≤ j →
         ((d.removePage i).2).pages.get? j = d.pages.get? (j + 1))) ∧
      ((d.replacePage i p).1 = d.pages.get? i.toNat ∧
       ((d.replacePage i p).2).pageCount = d.pageCount ∧
       ((d.replacePage i p).2).pages.get? i.toNat = some p ∧
       (∀ j : Nat, j ≠ i.toNat →
         ((d.replacePage i p).2).pages.get? j = d.pages.get? j))) := by
  simp only [PDFDocument.pageCount]
  refine ⟨?_, ?_, ?_⟩
  · intro h
    unfold PDFDocument.insertPage
    rw [if_pos (by omega)]
  · intro h
    constructor
    · unfold PDFDocument.removePage
      rw [if_pos (by omega)]
    · unfold PDFDocument.replacePage
      rw [if_pos (by omega)]
  · rintro ⟨h0, hlt⟩
    have hin : ¬(i < 0 ∨ (d.pages.length : Int) ≤ i) := by omega
    have hni : i.toNat < d.pages.length := by omega
    have htk : (d.pages.take i.toNat).length = i.toNat := by
      simp only [List.length_take]
      omega
    refine ⟨⟨?_, ?_, ?_, ?_, ?_⟩, ?_, ?_, ?_, ?_⟩
    · unfold PDFDocument.removePage
      rw [if_neg hin]
    · unfold PDFDocument.removePage
      rw [if_neg hin]
      have hne : d.pages.get? i.toNat ≠ none := by
        intro hnone
        have := List.get?_eq_none.mp hnone
        omega
      exact Option.isSome_iff_ne_none.mpr hne
    · unfold PDFDocument.removePage
      rw [if_neg hin]
      simp only [List.length_append, List.length_take, List.length_drop]
      omega
    · intro j hj
      unfold PDFDocument.removePage
      rw [if_neg hin]
      simp only []
      rw [List.get?_append (by omega : j < (d.pages.take i.toNat).length)]
      exact List.get?_take hj
    · intro j hj
      unfold PDFDocument.removePage
      rw [if_neg hin]
      simp only []
      rw [List.get?_append_right (by omega : (d.pages.take i.toNat).length ≤ j)]
      rw [htk, List.get?_drop]
      congr 1
      omega
    · unfold PDFDocument.replacePage
      rw [if_neg hin]
    · unfold PDFDocument.replacePage
      rw [if_neg hin]
      simp [List.length_set]
    · unfold PDFDocument.replacePage
      rw [if_neg hin]
      exact get?_set_self' _ _ _ hni
    · intro j hj
      unfold PDFDocument.replacePage
      rw [if_neg hin]
      exact get?_set_ne' _ _ _ _ (fun he => hj he.symm)

/-- Witness for C10: concrete out-of-range failures and in-range remove
and replace effects on the two-page fixture document. -/
theorem pageCrud_atomic_and_framed_witness :
    docAB.insertPage (-1) pageA = (false, docAB) ∧
    docAB.removePage 5 = (none, docAB) ∧
    (docAB.removePage 0).1 = docAB.pages.get? 0 ∧
    ((docAB.replacePage 1 pageA).2).pages.get? 1 = some pageA := by
  refine ⟨(pageCrud_atomic_and_framed docAB (-1) pageA).1 (by decide),
    ((pageCrud_atomic_and_framed docAB 5 pageA).2.1 (by decide)).1,
    (((pageCrud_atomic_and_framed docAB 0 pageA).2.2 (by decide)).1).1,
    (((pageCrud_atomic_and_framed docAB 1 pageA).2.2 (by decide)).2).2.2.1⟩

/-- Auxiliary: a stored-block body is at least five bytes longer than
its payload. -/
theorem storedBlocks_length_ge :
    ∀ (fuel : Nat) (data : List Nat), data.length < fuel →
      data.length + 5 ≤ (storedBlocks data).length := by
  intro fuel
  induction fuel with
  | zero =>
    intro data h
    omega
  | succ n ih =>
    intro data h
    unfold storedBlocks
    split
    · simp
    · have hd : (data.drop 65535).length < n := by
        simp only [List.length_drop]
        omega
      have hrec := ih (data.drop 65535) hd
      simp only [List.length_cons, List.length_append, List.length_take,
        List.length_drop] at hrec ⊢
      omega

/-- Auxiliary: reading stored blocks back returns the payload and the
unread remainder, for any fuel exceeding the payload length. -/
theorem inflateBlocks_storedBlocks :
    ∀ (fuel : Nat) (data tail : List Nat), data.length < fuel →
      inflateBlocks fuel (storedBlocks data ++ tail) = some (data, tail) := by
  intro fuel
  induction fuel with
  | zero =>
    intro data tail h
    omega
  | succ n ih =>
    intro data tail h
    unfold storedBlocks
    split
    case isTrue hle =>
      have hl := Nat.mod_add_div data.length 256
      have hn := Nat.mod_add_div (65535 - data.length) 256
      have hcond : data.length % 256 + 256 * (data.length / 256) +
          ((65535 - data.length) % 256 + 256 * ((65535 - data.length) / 256)) =
            65535 ∧
          data.length % 256 + 256 * (data.length / 256) ≤
            (data ++ tail).length := by
        rw [hl, hn]
        simp only [List.length_append]
        omega
      simp only [List.cons_append, inflateBlocks, List.append_eq, if_true]
      rw [if_pos hcond, hl, List.take_left, List.drop_left]
    case isFalse hgt =>
      push_neg at hgt
      have hd : (data.drop 65535).length < n := by
        simp only [List.length_drop]
        omega
      have htl : (data.take 65535).length = 65535 := by
        simp only [List.length_take]
        omega
      have hlen2 : (255 : Nat) + 256 * 255 ≤
          (data.take 65535 ++ (storedBlocks (data.drop 65535) ++ tail)).length := by
        simp only [List.length_append, htl]
        omega
      simp only [List.cons_append, List.append_eq, List.append_assoc,
        inflateBlocks, if_true, true_and]
      rw [if_pos hlen2, if_neg (show ¬((0 : Nat) % 2 = 1) by norm_num)]
      have h255 : (255 : Nat) + 256 * 255 = 65535 := by norm_num
      rw [h255, List.take_left' htl, List.drop_left' htl,
        ih (data.drop 65535) tail hd]
      simp [List.take_append_drop]

/-- Auxiliary: flateDecode unfolded on a buffer of at least two bytes. -/
theorem flateDecode_cons (cmf flg : Nat) (rest : List Nat) :
    flateDecode (cmf :: flg :: rest) =
      if cmf % 16 = 8 ∧ (cmf * 256 + flg) % 31 = 0 then
        match inflateBlocks (rest.length + 1) rest with
        | some (data, trailer) =>
            if trailer = adlerBytes data then some data else none
        | none => none
      else none := rfl

/-- C7 (the Filter Pipeline is spec-modelled): decoding the output of
the engine's Flate stream compression reproduces the input byte
sequence exactly, for every byte sequence. -/
theorem compressStream_decode_roundtrip (x : List Nat) :
    flateDecode (PDFSerializer.compressStream x) = some x := by
  have hfuel : x.length < (storedBlocks x ++ adlerBytes x).length + 1 := by
    have hsb := storedBlocks_length_ge (x.length + 1) x (by omega)
    simp only [List.length_append]
    omega
  show flateDecode (120 :: 1 :: (storedBlocks x ++ adlerBytes x)) = some x
  rw [flateDecode_cons,
    if_pos (by norm_num : (120 : Nat) % 16 = 8 ∧ ((120 : Nat) * 256 + 1) % 31 = 0),
    inflateBlocks_storedBlocks _ x (adlerBytes x) hfuel]
  simp

/-- Auxiliary: reading a live cell after allocating a fresh one sees the
old contents. -/
theorem JSHeap.read_alloc_old (h : JSHeap α) (v : List α) (r : Nat)
    (hr : r < h.cells.length) : (h.alloc v).1.read r = h.read r := by
  simp only [JSHeap.alloc, JSHeap.read]
  rw [List.get?_append hr]

/-- Auxiliary: reading the freshly allocated cell sees the stored
value. -/
theorem JSHeap.read_alloc_new (h : JSHeap α) (v : List α) :
    (h.alloc v).1.read (h.alloc v).2 = v := by
  simp only [JSHeap.alloc, JSHeap.read]
  rw [List.get?_concat_length]
  rfl

/-- Auxiliary: writing one cell leaves every other cell unchanged. -/
theorem JSHeap.read_write_ne (h : JSHeap α) (r r' : Nat) (v : List α)
    (hne : r' ≠ r) : (h.write r' v).read r = h.read r := by
  simp only [JSHeap.write, JSHeap.read]
  rw [get?_set_ne' _ _ _ _ hne]

/-- Auxiliary frame property of the spread-copy accessor pattern: when
the internal cell is live, mutating the returned copy does not change
the internal cell, and a repeated accessor call still reads the original
contents. -/
theorem spreadGet_safe (h : JSHeap α) (r : Nat) (hr : r < h.cells.length)
    (v : List α) :
    ((spreadGet h r).1.write (spreadGet h r).2 v).read r = h.read r ∧
    (spreadGet ((spreadGet h r).1.write (spreadGet h r).2 v) r).1.read
      (spreadGet ((spreadGet h r).1.write (spreadGet h r).2 v) r).2 =
      h.read r := by
  have h1 : ((spreadGet h r).1.write (spreadGet h r).2 v).read r = h.read r := by
    have hne : (spreadGet h r).2 ≠ r := by
      show h.cells.length ≠ r
      omega
    rw [JSHeap.read_write_ne _ _ _ _ hne]
    exact JSHeap.read_alloc_old h _ r hr
  refine ⟨h1, ?_⟩
  rw [show (spreadGet ((spreadGet h r).1.write (spreadGet h r).2 v) r).1.read
      (spreadGet ((spreadGet h r).1.write (spreadGet h r).2 v) r).2 =
      ((spreadGet h r).1.write (spreadGet h r).2 v).read r from
    JSHeap.read_alloc_new _ _]
  exact h1

/-- C8: each spread-copy accessor (getPages, the metadata getter, the
page content and annotation getters) hands out a fresh copy: for every
mutation of the returned object, the internally stored contents are
unchanged and a repeated accessor call returns the same values as before
the mutation. -/
theorem accessors_defensive (s : DocHeapState) (p : PageHeapState)
    (h1 : s.pagesRef < s.pagesH.cells.length)
    (h2 : s.metaRef < s.metaH.cells.length)
    (h3 : p.contentRef < p.contentH.cells.length)
    (h4 : p.annotsRef < p.annotsH.cells.length) :
    (∀ v, ((s.getPages.1.write s.getPages.2 v).read s.pagesRef =
        s.pagesH.read s.pagesRef) ∧
      ((DocHeapState.getPages
          { s with pagesH := s.getPages.1.write s.getPages.2 v }).1.read
        (DocHeapState.getPages
          { s with pagesH := s.getPages.1.write s.getPages.2 v }).2 =
        s.pagesH.read s.pagesRef)) ∧
    (∀ v, ((s.metadata.1.write s.metadata.2 v).read s.metaRef =
        s.metaH.read s.metaRef) ∧
      ((DocHeapState.metadata
          { s with metaH := s.metadata.1.write s.metadata.2 v }).1.read
        (DocHeapState.metadata
          { s with metaH := s.metadata.1.write s.metadata.2 v }).2 =
        s.metaH.read s.metaRef)) ∧
    (∀ v, ((p.content.1.write p.content.2 v).read p.contentRef =
        p.contentH.read p.contentRef) ∧
      ((PageHeapState.content
          { p with contentH := p.content.1.write p.content.2 v }).1.read
        (PageHeapState.content
          { p with contentH := p.content.1.write p.content.2 v }).2 =
        p.contentH.read p.contentRef)) ∧
    (∀ v, ((p.annots.1.write p.annots.2 v).read p.annotsRef =
        p.annotsH.read p.annotsRef) ∧
      ((PageHeapState.annots
          { p with annotsH := p.annots.1.write p.annots.2 v }).1.read
        (PageHeapState.annots
          { p with annotsH := p.annots.1.write p.annots.2 v }).2 =
        p.annotsH.read p.annotsRef)) := by
  refine ⟨fun v => ⟨?_, ?_⟩, fun v => ⟨?_, ?_⟩, fun v => ⟨?_, ?_⟩,
    fun v => ⟨?_, ?_⟩⟩
  · exact (spreadGet_safe s.pagesH s.pagesRef h1 v).1
  · exact (spreadGet_safe s.pagesH s.pagesRef h1 v).2
  · exact (spreadGet_safe s.metaH s.metaRef h2 v).1
  · exact (spreadGet_safe s.metaH s.metaRef h2 v).2
  · exact (spreadGet_safe p.contentH p.contentRef h3 v).1
  · exact (spreadGet_safe p.contentH p.contentRef h3 v).2
  · exact (spreadGet_safe p.annotsH p.annotsRef h4 v).1
  · exact (spreadGet_safe p.annotsH p.annotsRef h4 v).2

/-- Fixture heaps for the C8 witness: one live pages array, metadata
object, content array and annotation array. -/
def docHeap0 : DocHeapState :=
  { pagesH := ⟨[[pageA]]⟩
    pagesRef := 0
    metaH := ⟨[[("title", "T")]]⟩
    metaRef := 0 }

/-- Page-level fixture heaps for the C8 witness. -/
def pageHeap0 : PageHeapState :=
  { contentH := ⟨[[ContentItem.str "c"]]⟩
    contentRef := 0
    annotsH := ⟨[[]]⟩
    annotsRef := 0 }

/-- Witness for C8: emptying the arrays returned by getPages and the
content getter leaves the fixture's internal cells unchanged. -/
theorem accessors_defensive_witness :
    ((docHeap0.getPages.1.write docHeap0.getPages.2 []).read docHeap0.pagesRef =
      docHeap0.pagesH.read docHeap0.pagesRef) ∧
    ((pageHeap0.content.1.write pageHeap0.content.2 []).read pageHeap0.contentRef =
      pageHeap0.contentH.read pageHeap0.contentRef) :=
  ⟨((accessors_defensive docHeap0 pageHeap0 (by decide) (by decide) (by decide)
      (by decide)).1 []).1,
   ((accessors_defensive docHeap0 pageHeap0 (by decide) (by decide) (by decide)
      (by decide)).2.2.1 []).1⟩

/-- Witness for C3: concrete serialize and toBuffer calls with
encryption requested and no owner password. -/
theorem serialize_encrypt_requires_owner_password_witness :
    (∃ e, (PDFSerializer.new { encryptDocument := some true }).serialize
        (PDFDocument.new {}) = Except.error e ∧
       e.code = ErrorCodes.INVALID_PARAMETER) ∧
    (∃ e, (PDFDocument.new {}).toBuffer { encrypt := some true } = Except.error e ∧
       e.code = ErrorCodes.INVALID_PARAMETER) :=
  serialize_encrypt_requires_owner_password (PDFDocument.new {})
    { encryptDocument := some true } { encrypt := some true }
    rfl (Or.inl rfl) rfl (Or.inl rfl)
